import Mathlib

/-!
# Impact Simulator — verification of the what-if simulation logic

Shallow embedding of the impact-simulator logic of the subscription
intelligence dashboard (`src/app/streamlit_app_v2.py` and
`src/app/streamlit_app_v3.py`).  The Python code works on pandas
dataframes holding `(feature, coefficient)` rows; we model a ranked
signals table as a `List SignalRecord`, the multiselect widget's value
as a `List String`, and the `st.stop()` empty-selection guard as an
`Option`-returning function (`none` = the run halts before any
computation).  Python float arithmetic is modelled exactly over `ℚ`;
`round(x, 1)` is modelled by `round1` (the two rounding modes agree on
every value this program produces, since all rounded quantities here
are integers).
-/

/-- One row of a ranked signals table: a behavioral feature name and its
model coefficient (`feature` / `coefficient` columns of
`conversion_feature_importance.csv` or `churn_feature_importance.csv`). -/
structure SignalRecord where
  name : String
  coefficient : ℚ
deriving DecidableEq, Repr

/-- Which simulator a run belongs to: the Event Impact Simulator scores
growth (impact taken as-is), the Churn Impact Simulator scores risk
reduction (coefficient sign-inverted, `-1 * coefficient * uplift_factor`). -/
inductive Direction where
  | GROWTH
  | RISK_REDUCTION
deriving DecidableEq, Repr

/-- The derived outputs of one simulator run: the per-signal table
`(feature, coefficient, simulated_impact)` and the three aggregate sums. -/
structure SimulationResult where
  per_signal : List (String × ℚ × ℚ)
  positive_sum : ℚ
  negative_sum : ℚ
  net_effect : ℚ
deriving DecidableEq, Repr

/-- `uplift_factor = uplift / 100` (both versions, identical line). -/
def uplift_factor (uplift : ℚ) : ℚ := uplift / 100

/-- `selected_df["simulated_impact"]`: `coefficient * uplift_factor` in the
Event Impact Simulator, `-1 * coefficient * uplift_factor` in the Churn
Impact Simulator. -/
def simulated_impact (direction : Direction) (coefficient uplift : ℚ) : ℚ :=
  match direction with
  | .GROWTH => coefficient * uplift_factor uplift
  | .RISK_REDUCTION => -1 * coefficient * uplift_factor uplift

/-- `all_events[all_events["feature"].isin(selected_events)]`: keep the rows
whose name is among the selected ones, in table order. -/
def filterSelected (signals : List SignalRecord) (sel : List String) :
    List SignalRecord :=
  signals.filter (fun r => decide (r.name ∈ sel))

/-- `selected_df[selected_df["simulated_impact"] > 0]["simulated_impact"].sum()` -/
def positive_sum (impacts : List ℚ) : ℚ :=
  (impacts.filter (fun x => decide (0 < x))).sum

/-- `selected_df[selected_df["simulated_impact"] < 0]["simulated_impact"].sum()` -/
def negative_sum (impacts : List ℚ) : ℚ :=
  (impacts.filter (fun x => decide (x < 0))).sum

/-- The simulated impacts of the retained rows, in table order. -/
def impactsOf (signals : List SignalRecord) (sel : List String)
    (uplift : ℚ) (direction : Direction) : List ℚ :=
  (filterSelected signals sel).map
    (fun r => simulated_impact direction r.coefficient uplift)

/-- One run of either simulator section.  An empty selection hits the
`if not selected_events: st.warning(...); st.stop()` guard, which halts
the script before any simulation computation: modelled as `none`.
Otherwise the section filters, computes impacts, and aggregates. -/
def simulate (signals : List SignalRecord) (sel : List String)
    (uplift : ℚ) (direction : Direction) : Option SimulationResult :=
  if sel.isEmpty then
    none
  else
    let selected := filterSelected signals sel
    let impacts := impactsOf signals sel uplift direction
    some ⟨selected.map (fun r =>
            (r.name, r.coefficient, simulated_impact direction r.coefficient uplift)),
          positive_sum impacts,
          negative_sum impacts,
          positive_sum impacts + negative_sum impacts⟩

/-- Python's `round(x, 1)`.  Mathlib's `round` rounds half away from the
floor while Python rounds half to even, but every value rounded in this
program is an integer (see the closed forms below), where both agree. -/
def round1 (x : ℚ) : ℚ := (round (10 * x) : ℤ) / 10

/-- `compute_confidence` of `streamlit_app_v3.py` (lines 53–55):
`coverage = min(1.0, num_features / 5); round((0.5 + 0.5 * coverage) * 100, 1)`. -/
def compute_confidence_v3 (num_features : ℕ) : ℚ :=
  let coverage : ℚ := min 1 ((num_features : ℚ) / 5)
  round1 ((0.5 + 0.5 * coverage) * 100)

/-- `compute_confidence` of `streamlit_app_v2.py` (lines 5–13):
`base = min(1.0, data_size / 5000); coverage = min(1.0, num_features / 5);
round((0.6 * base + 0.4 * coverage) * 100, 1)`.  The source declares
`data_size=1000` as a default and every caller relies on it; we pass it
explicitly. -/
def compute_confidence_v2 (num_features : ℕ) (data_size : ℚ) : ℚ :=
  let base : ℚ := min 1 (data_size / 5000)
  let coverage : ℚ := min 1 ((num_features : ℚ) / 5)
  round1 ((0.6 * base + 0.4 * coverage) * 100)

/-- Confidence display band. -/
inductive Band where
  | low
  | moderate
  | high
deriving DecidableEq, Repr

/-- The v3 confidence guide (lines 587–592): `if confidence < 40` low,
`elif confidence < 70` moderate, else high. -/
def band_v3 (confidence : ℚ) : Band :=
  if confidence < 40 then .low
  else if confidence < 70 then .moderate
  else .high

/-- The v2 confidence guide (lines 673–686): `if confidence >= 70` high,
`elif confidence >= 40` moderate, else low. -/
def band_v2 (confidence : ℚ) : Band :=
  if 70 ≤ confidence then .high
  else if 40 ≤ confidence then .moderate
  else .low

/-- Narrative category of the v3 Churn Impact Simulator. -/
inductive ChurnInterp where
  | reduce_risk
  | limited
  | neutral
deriving DecidableEq, Repr

/-- The v3 Churn Impact Simulator narrative branches (lines 746–771):
`if net_effect > 0` → `st.success` ("could meaningfully reduce churn
risk", the positive-retention good-news branch); `elif net_effect < 0` →
`st.warning` ("limited impact on churn reduction"); else `st.info`
(neutral). -/
def churn_interp_v3 (net_effect : ℚ) : ChurnInterp :=
  if net_effect > 0 then .reduce_risk
  else if net_effect < 0 then .limited
  else .neutral

/-- The spec's worked conversion example: signals
`[("paywall_view", 0.40), ("calendar_select", 0.25), ("app_open", -0.10)]`. -/
def exampleSignals : List SignalRecord :=
  [⟨"paywall_view", 0.40⟩, ⟨"calendar_select", 0.25⟩, ⟨"app_open", -0.10⟩]

/-- The spec's worked churn example: signals `[("inactivity_days", 0.50)]`. -/
def churnExampleSignals : List SignalRecord :=
  [⟨"inactivity_days", 0.50⟩]

/-! ## Helper lemmas -/

/-- The sign partition loses nothing: the positive-part sum and the
negative-part sum of a list of rationals add up to the full sum (entries
equal to zero land in neither filter and contribute nothing anyway). -/
lemma positive_sum_add_negative_sum (l : List ℚ) :
    positive_sum l + negative_sum l = l.sum := by
  induction l with
  | nil => simp [positive_sum, negative_sum]
  | cons x xs ih =>
    unfold positive_sum negative_sum at ih ⊢
    rcases lt_trichotomy x 0 with h | h | h
    · simp only [List.filter_cons, decide_eq_true_eq, if_pos h,
        if_neg (by linarith : ¬ 0 < x), List.sum_cons]
      linarith
    · simp only [List.filter_cons, decide_eq_true_eq, h,
        if_neg (lt_irrefl (0:ℚ)), List.sum_cons]
      linarith
    · simp only [List.filter_cons, decide_eq_true_eq, if_pos h,
        if_neg (by linarith : ¬ x < 0), List.sum_cons]
      linarith

/-- A non-empty selection passes the guard, and the run's outputs are
exactly the filtered-and-mapped table plus the three sums. -/
lemma simulate_eq_some (signals : List SignalRecord) (sel : List String)
    (uplift : ℚ) (d : Direction) (h : sel ≠ []) :
    simulate signals sel uplift d =
      some ⟨(filterSelected signals sel).map (fun r =>
              (r.name, r.coefficient, simulated_impact d r.coefficient uplift)),
            positive_sum (impactsOf signals sel uplift d),
            negative_sum (impactsOf signals sel uplift d),
            positive_sum (impactsOf signals sel uplift d) +
              negative_sum (impactsOf signals sel uplift d)⟩ := by
  unfold simulate
  rw [if_neg (by simpa [List.isEmpty_iff] using h)]

/-- Closed form of the v3 confidence score: `50 + 10 * min n 5`. -/
lemma compute_confidence_v3_closed (n : ℕ) :
    compute_confidence_v3 n = ((50 + 10 * min n 5 : ℕ) : ℚ) := by
  unfold compute_confidence_v3 round1
  rcases le_total n 5 with h | h
  · have h5 : ((n : ℚ) / 5) ≤ 1 := by
      rw [div_le_one (by norm_num)]
      exact_mod_cast h
    rw [min_eq_right h5, min_eq_left h]
    have harg : (10 : ℚ) * ((0.5 + 0.5 * ((n : ℚ) / 5)) * 100) =
        ((500 + 100 * n : ℕ) : ℚ) := by
      push_cast
      ring
    simp only [harg, round_natCast]
    push_cast
    ring
  · have h5 : (1 : ℚ) ≤ (n : ℚ) / 5 := by
      rw [le_div_iff₀ (by norm_num)]
      have : (5 : ℚ) ≤ (n : ℚ) := by exact_mod_cast h
      linarith
    rw [min_eq_left h5, min_eq_right h]
    norm_num

/-- Closed form of the v2 confidence score at its default
`data_size = 1000`: `12 + 8 * min n 5`. -/
lemma compute_confidence_v2_closed (n : ℕ) :
    compute_confidence_v2 n 1000 = ((12 + 8 * min n 5 : ℕ) : ℚ) := by
  unfold compute_confidence_v2 round1
  have hbase : min (1 : ℚ) (1000 / 5000) = 1 / 5 := by norm_num
  rw [hbase]
  rcases le_total n 5 with h | h
  · have h5 : ((n : ℚ) / 5) ≤ 1 := by
      rw [div_le_one (by norm_num)]
      exact_mod_cast h
    rw [min_eq_right h5, min_eq_left h]
    have harg : (10 : ℚ) * ((0.6 * (1 / 5) + 0.4 * ((n : ℚ) / 5)) * 100) =
        ((120 + 80 * n : ℕ) : ℚ) := by
      push_cast
      ring
    simp only [harg, round_natCast]
    push_cast
    ring
  · have h5 : (1 : ℚ) ≤ (n : ℚ) / 5 := by
      rw [le_div_iff₀ (by norm_num)]
      have : (5 : ℚ) ≤ (n : ℚ) := by exact_mod_cast h
      linarith
    rw [min_eq_left h5, min_eq_right h]
    norm_num

/-- Doubling the uplift doubles every retained impact. -/
lemma impactsOf_double (signals : List SignalRecord) (sel : List String)
    (u : ℚ) (d : Direction) :
    impactsOf signals sel (2 * u) d =
      (impactsOf signals sel u d).map (fun x => 2 * x) := by
  unfold impactsOf
  rw [List.map_map]
  apply List.map_congr_left
  intro r _
  cases d <;> simp [simulated_impact, uplift_factor] <;> ring

/-- Summing a doubled list doubles the sum. -/
lemma sum_map_double (l : List ℚ) : (l.map (fun x => 2 * x)).sum = 2 * l.sum := by
  induction l with
  | nil => simp
  | cons x xs ih =>
    simp only [List.map_cons, List.sum_cons, ih]
    ring

/-! ## Claim theorems -/

/-- C1: for every retained signal and every uplift, the simulated impact
is `coefficient * (uplift / 100)` under GROWTH and
`-coefficient * (uplift / 100)` under RISK_REDUCTION; on the spec's
worked example (signals paywall_view 0.40 / calendar_select 0.25 /
app_open -0.10, selected paywall_view and app_open, uplift 20 %, GROWTH)
the impacts are [0.08, -0.02] with positive_sum 0.08, negative_sum
-0.02, net_effect 0.06. -/
theorem simulated_impact_formula (c u : ℚ) :
    simulated_impact .GROWTH c u = c * (u / 100) ∧
    simulated_impact .RISK_REDUCTION c u = -(c * (u / 100)) ∧
    simulate exampleSignals ["paywall_view", "app_open"] 20 .GROWTH =
      some ⟨[("paywall_view", 0.40, 0.08), ("app_open", -0.10, -0.02)],
            0.08, -0.02, 0.06⟩ := by
  refine ⟨?_, ?_, ?_⟩
  · simp [simulated_impact, uplift_factor]
  · simp [simulated_impact, uplift_factor]
  · simp [simulate, filterSelected, impactsOf, positive_sum, negative_sum,
          simulated_impact, uplift_factor, exampleSignals,
          List.filter_cons] <;> norm_num

/-- C2: for any non-empty selection and uplift in [5, 50], the run
produces a result whose positive_sum sums exactly the impacts strictly
above 0, whose negative_sum sums exactly those strictly below 0 (zero
impacts land in neither), and whose net_effect is their total and equals
the plain sum of all retained impacts. -/
theorem sign_partition_net_effect (signals : List SignalRecord)
    (sel : List String) (u : ℚ) (d : Direction) (hne : sel ≠ [])
    (_h5 : 5 ≤ u) (_h50 : u ≤ 50) :
    ∃ res, simulate signals sel u d = some res ∧
      res.positive_sum =
        ((impactsOf signals sel u d).filter (fun x => decide (0 < x))).sum ∧
      res.negative_sum =
        ((impactsOf signals sel u d).filter (fun x => decide (x < 0))).sum ∧
      res.net_effect = res.positive_sum + res.negative_sum ∧
      res.net_effect = (impactsOf signals sel u d).sum := by
  refine ⟨_, simulate_eq_some signals sel u d hne, rfl, rfl, rfl, ?_⟩
  exact positive_sum_add_negative_sum _

theorem sign_partition_net_effect_witness :
    ∃ res, simulate exampleSignals ["paywall_view", "app_open"] 20 .GROWTH =
        some res ∧
      res.positive_sum =
        ((impactsOf exampleSignals ["paywall_view", "app_open"] 20
          .GROWTH).filter (fun x => decide (0 < x))).sum ∧
      res.negative_sum =
        ((impactsOf exampleSignals ["paywall_view", "app_open"] 20
          .GROWTH).filter (fun x => decide (x < 0))).sum ∧
      res.net_effect = res.positive_sum + res.negative_sum ∧
      res.net_effect =
        (impactsOf exampleSignals ["paywall_view", "app_open"] 20 .GROWTH).sum :=
  sign_partition_net_effect exampleSignals ["paywall_view", "app_open"] 20
    .GROWTH (by simp) (by norm_num) (by norm_num)

/-- C3 (amended): both confidence variants are monotone non-decreasing
in the number of selected signals and cap their coverage term at 1.0
once it reaches 5; v3 is bounded in [50, 100] (its configured base
weight 0.5 is a true floor), but v2 at its default data_size = 1000 is
bounded in [12, 52] — not in [60, 100] — because its configured base
weight 0.6 multiplies min(1, 1000/5000) = 0.2 instead of acting as a
floor. -/
theorem confidence_monotone_bounded (m n : ℕ) (hmn : m ≤ n) :
    compute_confidence_v3 m ≤ compute_confidence_v3 n ∧
    compute_confidence_v2 m 1000 ≤ compute_confidence_v2 n 1000 ∧
    (5 ≤ n → min 1 ((n : ℚ) / 5) = 1 ∧
      compute_confidence_v3 n = 100 ∧ compute_confidence_v2 n 1000 = 52) ∧
    50 ≤ compute_confidence_v3 n ∧ compute_confidence_v3 n ≤ 100 ∧
    12 ≤ compute_confidence_v2 n 1000 ∧ compute_confidence_v2 n 1000 ≤ 52 := by
  rw [compute_confidence_v3_closed m, compute_confidence_v3_closed n,
      compute_confidence_v2_closed m, compute_confidence_v2_closed n]
  refine ⟨?_, ?_, fun h => ⟨?_, ?_, ?_⟩, ?_, ?_, ?_, ?_⟩
  · exact_mod_cast (show 50 + 10 * min m 5 ≤ 50 + 10 * min n 5 by omega)
  · exact_mod_cast (show 12 + 8 * min m 5 ≤ 12 + 8 * min n 5 by omega)
  · have h1 : (1 : ℚ) ≤ (n : ℚ) / 5 := by
      rw [le_div_iff₀ (by norm_num)]
      have : (5 : ℚ) ≤ (n : ℚ) := by exact_mod_cast h
      linarith
    exact min_eq_left h1
  · exact_mod_cast (show 50 + 10 * min n 5 = 100 by omega)
  · exact_mod_cast (show 12 + 8 * min n 5 = 52 by omega)
  · exact_mod_cast (show 50 ≤ 50 + 10 * min n 5 by omega)
  · exact_mod_cast (show 50 + 10 * min n 5 ≤ 100 by omega)
  · exact_mod_cast (show 12 ≤ 12 + 8 * min n 5 by omega)
  · exact_mod_cast (show 12 + 8 * min n 5 ≤ 52 by omega)

theorem confidence_monotone_bounded_witness :
    compute_confidence_v3 2 ≤ compute_confidence_v3 5 ∧
    compute_confidence_v2 2 1000 ≤ compute_confidence_v2 5 1000 ∧
    (5 ≤ 5 → min 1 (((5 : ℕ) : ℚ) / 5) = 1 ∧
      compute_confidence_v3 5 = 100 ∧ compute_confidence_v2 5 1000 = 52) ∧
    50 ≤ compute_confidence_v3 5 ∧ compute_confidence_v3 5 ≤ 100 ∧
    12 ≤ compute_confidence_v2 5 1000 ∧ compute_confidence_v2 5 1000 ≤ 52 :=
  confidence_monotone_bounded 2 5 (by norm_num)

/-- C3 counterexample: taking v2's configured base weight 0.6 as the
claimed floor, the bound fails at zero selected signals — the score is
12, far below 0.6 * 100 = 60 (indeed even its maximum, 52, is below 60). -/
theorem confidence_v2_floor_counterexample :
    compute_confidence_v2 0 1000 = 12 ∧
    ¬ ((0.6 : ℚ) * 100 ≤ compute_confidence_v2 0 1000) ∧
    compute_confidence_v2 5 1000 = 52 ∧
    ¬ ((0.6 : ℚ) * 100 ≤ compute_confidence_v2 5 1000) := by
  have h0 := compute_confidence_v2_closed 0
  have h5 := compute_confidence_v2_closed 5
  norm_num at h0 h5
  refine ⟨h0, ?_, h5, ?_⟩
  · rw [h0]
    norm_num
  · rw [h5]
    norm_num

/-- C4: on the spec's churn example (single signal inactivity_days with
coefficient 0.50, uplift 10 %, RISK_REDUCTION) the single impact is
-0.05 and net_effect is -0.05, which lands in the v3 narrative branch
taken when net_effect < 0 (the limited/negative band) and not in the
branch reserved for positive net_effect (the positive-retention
good-news band). -/
theorem churn_example_negative_band :
    simulate churnExampleSignals ["inactivity_days"] 10 .RISK_REDUCTION =
      some ⟨[("inactivity_days", 0.50, -0.05)], 0, -0.05, -0.05⟩ ∧
    churn_interp_v3 (-0.05) = ChurnInterp.limited ∧
    churn_interp_v3 (-0.05) ≠ ChurnInterp.reduce_risk := by
  refine ⟨?_, ?_, ?_⟩
  · simp [simulate, filterSelected, impactsOf, positive_sum, negative_sum,
          simulated_impact, uplift_factor, churnExampleSignals,
          List.filter_cons] <;> norm_num
  · norm_num [churn_interp_v3]
  · have h : churn_interp_v3 (-0.05) = ChurnInterp.limited := by
      norm_num [churn_interp_v3]
    rw [h]
    decide

/-- C5: an empty selection makes the run halt before any computation
(the `st.stop` guard, modelled as `none`), and any non-empty selection
passes the guard and produces a result. -/
theorem empty_selection_halts (signals : List SignalRecord) (u : ℚ)
    (d : Direction) (sel : List String) (hne : sel ≠ []) :
    simulate signals [] u d = none ∧
    (simulate signals sel u d).isSome = true := by
  constructor
  · simp [simulate]
  · rw [simulate_eq_some signals sel u d hne]
    rfl

theorem empty_selection_halts_witness :
    simulate exampleSignals [] 15 .GROWTH = none ∧
    (simulate exampleSignals ["paywall_view"] 15 .GROWTH).isSome = true :=
  empty_selection_halts exampleSignals 15 .GROWTH ["paywall_view"] (by simp)

/-- C6: with the selection and coefficients fixed and both u and 2u in
the slider range, doubling the uplift doubles every simulated impact
(pointwise and as a list) and doubles the net effect. -/
theorem uplift_linearity (signals : List SignalRecord) (sel : List String)
    (u : ℚ) (d : Direction) (_h5 : 5 ≤ u) (_h50 : 2 * u ≤ 50) (hne : sel ≠ []) :
    (∀ c : ℚ, simulated_impact d c (2 * u) = 2 * simulated_impact d c u) ∧
    impactsOf signals sel (2 * u) d =
      (impactsOf signals sel u d).map (fun x => 2 * x) ∧
    ∀ res res₂, simulate signals sel u d = some res →
      simulate signals sel (2 * u) d = some res₂ →
        res₂.net_effect = 2 * res.net_effect := by
  refine ⟨?_, impactsOf_double signals sel u d, ?_⟩
  · intro c
    cases d <;> simp [simulated_impact, uplift_factor] <;> ring
  · intro res res₂ h1 h2
    rw [simulate_eq_some signals sel u d hne, Option.some_inj] at h1
    rw [simulate_eq_some signals sel (2 * u) d hne, Option.some_inj] at h2
    subst h1
    subst h2
    show positive_sum (impactsOf signals sel (2 * u) d) +
        negative_sum (impactsOf signals sel (2 * u) d) =
      2 * (positive_sum (impactsOf signals sel u d) +
        negative_sum (impactsOf signals sel u d))
    rw [positive_sum_add_negative_sum, positive_sum_add_negative_sum,
        impactsOf_double, sum_map_double]

theorem uplift_linearity_witness :
    (∀ c : ℚ, simulated_impact .GROWTH c (2 * 10) =
        2 * simulated_impact .GROWTH c 10) ∧
    impactsOf exampleSignals ["paywall_view", "app_open"] (2 * 10) .GROWTH =
      (impactsOf exampleSignals ["paywall_view", "app_open"] 10
        .GROWTH).map (fun x => 2 * x) ∧
    ∀ res res₂,
      simulate exampleSignals ["paywall_view", "app_open"] 10 .GROWTH =
          some res →
        simulate exampleSignals ["paywall_view", "app_open"] (2 * 10)
            .GROWTH = some res₂ →
          res₂.net_effect = 2 * res.net_effect :=
  uplift_linearity exampleSignals ["paywall_view", "app_open"] 10 .GROWTH
    (by norm_num) (by norm_num) (by simp)

/-- C7: the per-signal output table is the order-preserving image of the
filtered input (never re-sorted): whenever the input table is ranked by
descending coefficient, so are the output rows; and concretely (example
signals under RISK_REDUCTION, uplift 20 %) the output rows are not
sorted by simulated impact. -/
theorem output_order_preserved (signals : List SignalRecord)
    (sel : List String) (u : ℚ) (d : Direction)
    (hrank : signals.Pairwise (fun a b => b.coefficient ≤ a.coefficient)) :
    (∀ res, simulate signals sel u d = some res →
      res.per_signal = (filterSelected signals sel).map (fun r =>
        (r.name, r.coefficient, simulated_impact d r.coefficient u)) ∧
      res.per_signal.Pairwise (fun a b => b.2.1 ≤ a.2.1)) ∧
    List.Sublist (filterSelected signals sel) signals ∧
    ∃ res, simulate exampleSignals ["paywall_view", "app_open"] 20
        .RISK_REDUCTION = some res ∧
      res.per_signal = [("paywall_view", 0.40, -0.08),
                        ("app_open", -0.10, 0.02)] ∧
      ¬ res.per_signal.Pairwise (fun a b => b.2.2 ≤ a.2.2) := by
  refine ⟨?_, List.filter_sublist _, ?_⟩
  · intro res h
    rcases sel with _ | ⟨s, ss⟩
    · simp [simulate] at h
    · rw [simulate_eq_some signals (s :: ss) u d (by simp),
          Option.some_inj] at h
      subst h
      refine ⟨rfl, ?_⟩
      exact List.Pairwise.map _ (fun a b hab => hab)
        (hrank.sublist (List.filter_sublist _))
  · refine ⟨⟨[("paywall_view", 0.40, -0.08), ("app_open", -0.10, 0.02)],
      0.02, -0.08, -0.06⟩, ?_, rfl, ?_⟩
    · simp [simulate, filterSelected, impactsOf, positive_sum,
            negative_sum, simulated_impact, uplift_factor,
            exampleSignals, List.filter_cons] <;> norm_num
    · norm_num [List.pairwise_cons]

theorem output_order_preserved_witness :
    (∀ res, simulate exampleSignals ["paywall_view", "app_open"] 20
        .GROWTH = some res →
      res.per_signal =
        (filterSelected exampleSignals ["paywall_view", "app_open"]).map
          (fun r => (r.name, r.coefficient,
            simulated_impact .GROWTH r.coefficient 20)) ∧
      res.per_signal.Pairwise (fun a b => b.2.1 ≤ a.2.1)) ∧
    List.Sublist (filterSelected exampleSignals ["paywall_view", "app_open"])
      exampleSignals ∧
    ∃ res, simulate exampleSignals ["paywall_view", "app_open"] 20
        .RISK_REDUCTION = some res ∧
      res.per_signal = [("paywall_view", 0.40, -0.08),
                        ("app_open", -0.10, 0.02)] ∧
      ¬ res.per_signal.Pairwise (fun a b => b.2.2 ≤ a.2.2) :=
  output_order_preserved exampleSignals ["paywall_view", "app_open"] 20
    .GROWTH (by norm_num [exampleSignals, List.pairwise_cons])

/-- C8: selection is intersection with the available names — a retained
row is exactly one that is both in the table and selected, an unmatched
selected name is simply absent (concretely, selecting the missing
"ghost_event" alongside "paywall_view" retains only the latter), and the
run still succeeds without error. -/
theorem unmatched_selection (signals : List SignalRecord)
    (sel : List String) (u : ℚ) (d : Direction) (hne : sel ≠ []) :
    (∀ r : SignalRecord,
      r ∈ filterSelected signals sel ↔ r ∈ signals ∧ r.name ∈ sel) ∧
    (∃ res, simulate signals sel u d = some res) ∧
    (filterSelected exampleSignals ["paywall_view", "ghost_event"]).map
      (fun r => r.name) = ["paywall_view"] := by
  refine ⟨?_, ⟨_, simulate_eq_some signals sel u d hne⟩, ?_⟩
  · intro r
    simp [filterSelected, List.mem_filter]
  · simp [filterSelected, exampleSignals, List.filter_cons]

theorem unmatched_selection_witness :
    (∀ r : SignalRecord,
      r ∈ filterSelected exampleSignals ["paywall_view", "ghost_event"] ↔
        r ∈ exampleSignals ∧ r.name ∈ ["paywall_view", "ghost_event"]) ∧
    (∃ res, simulate exampleSignals ["paywall_view", "ghost_event"] 20
        .GROWTH = some res) ∧
    (filterSelected exampleSignals ["paywall_view", "ghost_event"]).map
      (fun r => r.name) = ["paywall_view"] :=
  unmatched_selection exampleSignals ["paywall_view", "ghost_event"] 20
    .GROWTH (by simp)

/-- C9: the v3 and v2 confidence guides bucket identically: below 40 is
low, in [40, 70) moderate, and at or above 70 high. -/
theorem confidence_bands_agree (c : ℚ) :
    band_v3 c = band_v2 c ∧
    (band_v3 c = Band.low ↔ c < 40) ∧
    (band_v3 c = Band.moderate ↔ 40 ≤ c ∧ c < 70) ∧
    (band_v3 c = Band.high ↔ 70 ≤ c) := by
  rcases lt_or_le c 40 with h1 | h1
  · simp [band_v3, band_v2, h1, (by linarith : ¬ 70 ≤ c),
      (by linarith : ¬ 40 ≤ c), (by linarith : c < 70)]
  · rcases lt_or_le c 70 with h2 | h2
    · simp [band_v3, band_v2, h1, h2, (by linarith : ¬ c < 40),
        (by linarith : ¬ 70 ≤ c)]
    · simp [band_v3, band_v2, h1, h2, (by linarith : ¬ c < 40),
        (by linarith : ¬ c < 70)]

/-- C10: v2's confidence at its default data_size = 1000 reduces to
`round((0.12 + 0.4 * min(1, n/5)) * 100, 1)`, never exceeds 52, never
reaches 100, and therefore v2's own high-confidence branch
(confidence ≥ 70) is unreachable. -/
theorem v2_confidence_never_high (n : ℕ) :
    compute_confidence_v2 n 1000 =
      round1 ((0.12 + 0.4 * min 1 ((n : ℚ) / 5)) * 100) ∧
    compute_confidence_v2 n 1000 ≤ 52 ∧
    compute_confidence_v2 n 1000 < 100 ∧
    band_v2 (compute_confidence_v2 n 1000) ≠ Band.high := by
  have hc := compute_confidence_v2_closed n
  refine ⟨?_, ?_, ?_, ?_⟩
  · unfold compute_confidence_v2
    have hbase : min (1 : ℚ) (1000 / 5000) = 1 / 5 := by norm_num
    simp only [hbase]
    congr 1
    ring
  · rw [hc]
    exact_mod_cast (show 12 + 8 * min n 5 ≤ 52 by omega)
  · rw [hc]
    exact_mod_cast (show 12 + 8 * min n 5 < 100 by omega)
  · rw [hc]
    have hlt : ((12 + 8 * min n 5 : ℕ) : ℚ) < 70 := by
      exact_mod_cast (show 12 + 8 * min n 5 < 70 by omega)
    unfold band_v2
    rw [if_neg (by linarith)]
    split_ifs <;> decide
